import Mathlib

/-!
Verification of the Tnua character-controller core from src/controller.rs:
the dynamic basis slot (the set/update operation TnuaController::basis) and
the basis driver (apply_controller_system).  The supporting type-erasure
interface (the basis_trait module: TnuaBasis, BoxableBasis, DynamicBasis) is
not among the provided sources, so its data shape and its advance-one-frame
contract are modelled from the spec.
-/

/-- Modelled from the spec: the basis_trait module (TnuaBasis, BoxableBasis,
DynamicBasis) is not among the provided sources.  A universe of concrete
motion-strategy kinds: each kind carries a caller-supplied configuration
type, an internal running-state type, a default (zeroed) running state used
when a fresh boxed instance is allocated, and an advance-one-frame step
whose side effects are confined to the internal running state. -/
structure BasisUniverse where
  Kind : Type
  Config : Kind → Type
  State : Kind → Type
  defaultState : (k : Kind) → State k
  applyStep : (k : Kind) → Config k → State k → State k

/-- Modelled from the spec: the type-erased boxed strategy held in the slot
(a BoxableBasis behind Box of dyn DynamicBasis): a runtime type tag naming
the concrete strategy kind, the configuration field (`input`), and the
accumulated internal running state. -/
structure BoxedBasis (U : BasisUniverse) where
  kind : U.Kind
  input : U.Config kind
  state : U.State kind

/-- The per-character controller record from src/controller.rs: an optional
pair of a display name and a type-erased basis strategy. -/
structure TnuaController (U : BasisUniverse) where
  current_basis : Option (String × BoxedBasis U)

/-- TnuaController::basis from src/controller.rs.  If the held strategy
downcasts to the requested concrete kind (the runtime type tags agree), the
display name and the configuration field are overwritten in place and the
accumulated running state is kept; otherwise a fresh boxed strategy with the
default running state replaces the contents of the slot. -/
def TnuaController.basis {U : BasisUniverse} [DecidableEq U.Kind]
    (self : TnuaController U) (name : String) (k : U.Kind)
    (input : U.Config k) : TnuaController U :=
  match self.current_basis with
  | some (_, b) =>
      if h : b.kind = k then
        ⟨some (name, ⟨k, input, h ▸ b.state⟩)⟩
      else
        ⟨some (name, ⟨k, input, U.defaultState k⟩)⟩
  | none => ⟨some (name, ⟨k, input, U.defaultState k⟩)⟩

/-- The body of the driver loop in apply_controller_system from
src/controller.rs, for one character: if the character holds an active
basis, invoke its advance-one-frame operation once, otherwise do nothing.
The second component records how many times advance-one-frame ran. -/
def tickController {U : BasisUniverse} (c : TnuaController U) :
    TnuaController U × Nat :=
  match c.current_basis with
  | some (n, b) =>
      (⟨some (n, ⟨b.kind, b.input, U.applyStep b.kind b.input b.state⟩)⟩, 1)
  | none => (c, 0)

/-- apply_controller_system from src/controller.rs: read the frame duration,
return immediately when it equals exactly zero, and otherwise run the loop
body once per character record.  The result pairs each resulting record
with the number of advance-one-frame invocations it received. -/
def apply_controller_system {U : BasisUniverse} (frame_duration : Rat)
    (query : List (TnuaController U)) : List (TnuaController U × Nat) :=
  if frame_duration = 0 then query.map fun c => (c, 0)
  else query.map tickController

/-- A concrete universe with two strategy kinds (walk and fall, tagged by a
Bool) used to evaluate the theorems on concrete inputs: the configuration
is a rational speed, the internal running state is a frame counter, and the
advance step increments the counter. -/
@[reducible] def demoU : BasisUniverse where
  Kind := Bool
  Config := fun _ => Rat
  State := fun _ => Nat
  defaultState := fun _ => 0
  applyStep := fun _ _ s => s + 1

/-- A demo controller holding a walk basis with the given speed and frame
counter. -/
def walkC (speed : Rat) (st : Nat) : TnuaController demoU :=
  ⟨some ("walk", ⟨false, speed, st⟩)⟩

/-- C1: when the slot already holds a strategy of the same concrete kind as
the request, the operation updates in place: the display name and the
configuration field are overwritten with the new values and the accumulated
internal running state of the held strategy is preserved; the slot still
holds that same strategy. -/
theorem basis_same_kind_updates_in_place {U : BasisUniverse}
    [DecidableEq U.Kind] (n₀ : String) (b : BoxedBasis U)
    (name : String) (input : U.Config b.kind) :
    (TnuaController.mk (some (n₀, b)) : TnuaController U).basis
        name b.kind input =
      ⟨some (name, ⟨b.kind, input, b.state⟩)⟩ := by
  simp [TnuaController.basis]

/-- C2: a tick whose frame duration equals exactly zero returns immediately:
every character record is left unchanged and advance-one-frame is invoked
on zero characters, regardless of how many characters hold active bases. -/
theorem zero_duration_tick_no_work {U : BasisUniverse}
    (query : List (TnuaController U)) :
    apply_controller_system 0 query = query.map (fun c => (c, 0)) ∧
      (List.map Prod.snd (apply_controller_system 0 query)).sum = 0 := by
  constructor
  · simp [apply_controller_system]
  · induction query with
    | nil => rfl
    | cons c cs ih => simpa [apply_controller_system] using ih

/-- C3: when the slot is empty, or holds a strategy of a kind different from
the requested one, the operation installs a fresh boxed strategy wrapping
the new configuration with the default running state under the new name,
discarding what was there; advancing the character afterwards runs the new
kind of logic. -/
theorem basis_fresh_install {U : BasisUniverse} [DecidableEq U.Kind]
    (name : String) (k : U.Kind) (input : U.Config k)
    (n₀ : String) (b : BoxedBasis U) (hk : b.kind ≠ k) :
    (TnuaController.mk none : TnuaController U).basis name k input =
        ⟨some (name, ⟨k, input, U.defaultState k⟩)⟩ ∧
      (TnuaController.mk (some (n₀, b)) : TnuaController U).basis
          name k input =
        ⟨some (name, ⟨k, input, U.defaultState k⟩)⟩ ∧
      tickController
          (TnuaController.mk (some (name, ⟨k, input, U.defaultState k⟩)) :
            TnuaController U) =
        (⟨some (name, ⟨k, input, U.applyStep k input (U.defaultState k)⟩)⟩,
          1) := by
  refine ⟨rfl, ?_, rfl⟩
  simp [TnuaController.basis, hk]

/-- Witness for C3 at concrete inputs: a character holding a walk basis with
accumulated state receives a fall request; the walk state is discarded and
a fresh fall strategy with zeroed state is installed. -/
theorem basis_fresh_install_witness :
    (TnuaController.mk none : TnuaController demoU).basis "fall" true 2 =
        ⟨some ("fall", ⟨true, 2, demoU.defaultState true⟩)⟩ ∧
      (TnuaController.mk (some ("walk", ⟨false, 5, 3⟩)) :
          TnuaController demoU).basis "fall" true 2 =
        ⟨some ("fall", ⟨true, 2, demoU.defaultState true⟩)⟩ ∧
      tickController
          (TnuaController.mk
              (some ("fall", ⟨true, 2, demoU.defaultState true⟩)) :
            TnuaController demoU) =
        (⟨some ("fall",
            ⟨true, 2, demoU.applyStep true 2 (demoU.defaultState true)⟩)⟩,
          1) :=
  @basis_fresh_install demoU _ "fall" true 2 "walk" ⟨false, 5, 3⟩
    (by decide)

/-- C4: for a positive frame duration the driver runs the loop body exactly
once per character; the loop body invokes advance-one-frame exactly once
for a character holding an active basis and zero times otherwise, so no
character is advanced more than once per tick. -/
theorem positive_duration_tick_advances_once {U : BasisUniverse}
    (d : Rat) (hd : 0 < d) (query : List (TnuaController U)) :
    apply_controller_system d query = query.map tickController ∧
      ∀ c : TnuaController U,
        (tickController c).2 = if c.current_basis.isSome then 1 else 0 := by
  constructor
  · simp [apply_controller_system, hd.ne.symm]
  · intro c
    rcases c with ⟨_ | ⟨n, b⟩⟩ <;> simp [tickController]

/-- Witness for C4 at concrete inputs: duration 1, one walking character and
one empty character; the walker is advanced exactly once, the other not at
all. -/
theorem positive_duration_tick_advances_once_witness :
    (apply_controller_system 1
          [walkC 5 3, (⟨none⟩ : TnuaController demoU)] =
        List.map tickController
          [walkC 5 3, (⟨none⟩ : TnuaController demoU)] ∧
      ∀ c : TnuaController demoU,
        (tickController c).2 = if c.current_basis.isSome then 1 else 0) :=
  positive_duration_tick_advances_once 1 (by norm_num)
    [walkC 5 3, ⟨none⟩]

/-- C5: the set/update operation is independent of frame time: a basis
request issued on a zero-duration tick still fully takes effect on the slot
(the record entering the driver already carries the updated slot, exactly
the value the operation produces on any tick), and only the advance step is
skipped on that tick. -/
theorem basis_request_applies_on_zero_tick {U : BasisUniverse}
    [DecidableEq U.Kind] (c : TnuaController U) (name : String)
    (k : U.Kind) (input : U.Config k)
    (pre post : List (TnuaController U)) :
    apply_controller_system 0 (pre ++ c.basis name k input :: post) =
      (pre.map fun x => (x, 0)) ++
        (c.basis name k input, 0) :: (post.map fun x => (x, 0)) := by
  simp [apply_controller_system]

/-- C6: a character with no active basis is left unchanged by a tick of any
frame duration, and no strategy operation is invoked on it. -/
theorem no_basis_tick_noop {U : BasisUniverse} (d : Rat)
    (c : TnuaController U) (hc : c.current_basis = none)
    (pre post : List (TnuaController U)) :
    apply_controller_system d (pre ++ c :: post) =
      apply_controller_system d pre ++
        (c, 0) :: apply_controller_system d post := by
  rcases c with ⟨cb⟩
  obtain rfl : cb = none := hc
  by_cases hd : d = 0 <;> simp [apply_controller_system, hd, tickController]

/-- Witness for C6 at concrete inputs: one empty character, frame duration
2; its record passes through unchanged with zero invocations. -/
theorem no_basis_tick_noop_witness :
    apply_controller_system 2
        ([] ++ (⟨none⟩ : TnuaController demoU) :: []) =
      apply_controller_system 2 ([] : List (TnuaController demoU)) ++
        ((⟨none⟩ : TnuaController demoU), 0) ::
          apply_controller_system 2 [] :=
  no_basis_tick_noop 2 ⟨none⟩ rfl [] []

/-- C7: the choice between the in-place path and the fresh-replacement path
depends only on the runtime type tag of the held strategy, never on the
stored display name: two slots differing only in the stored name produce
identical results under the same request, and requesting the same kind
under a different name still updates in place, preserving the accumulated
state. -/
theorem basis_dispatch_ignores_name {U : BasisUniverse}
    [DecidableEq U.Kind] (n₀ n₁ name : String) (b : BoxedBasis U)
    (k : U.Kind) (input : U.Config k) (input₂ : U.Config b.kind) :
    (TnuaController.mk (some (n₀, b)) : TnuaController U).basis
          name k input =
        (TnuaController.mk (some (n₁, b)) : TnuaController U).basis
          name k input ∧
      (TnuaController.mk (some (n₀, b)) : TnuaController U).basis
          name b.kind input₂ =
        ⟨some (name, ⟨b.kind, input₂, b.state⟩)⟩ := by
  refine ⟨rfl, ?_⟩
  simp [TnuaController.basis]

/-- C8: of repeated set/update calls of the same strategy kind on one
character, only the last call wins: requesting twice yields exactly the
slot state produced by issuing only the final request. -/
theorem basis_repeated_same_kind_last_wins {U : BasisUniverse}
    [DecidableEq U.Kind] (c : TnuaController U) (n₁ n₂ : String)
    (k : U.Kind) (i₁ i₂ : U.Config k) :
    (c.basis n₁ k i₁).basis n₂ k i₂ = c.basis n₂ k i₂ := by
  rcases c with ⟨_ | ⟨n₀, b⟩⟩
  · simp [TnuaController.basis]
  · by_cases h : b.kind = k
    · subst h
      simp [TnuaController.basis]
    · simp [TnuaController.basis, h]

/-- C9: for a character holding an active basis and a nonzero frame
duration, the tick keeps the slot structure intact: the same strategy (same
kind tag and configuration) under the same display name, with exactly one
advance invocation whose only effect is the advance step on the internal
running state. -/
theorem active_basis_tick_preserves_slot {U : BasisUniverse} (d : Rat)
    (hd : d ≠ 0) (n : String) (b : BoxedBasis U)
    (pre post : List (TnuaController U)) :
    apply_controller_system d
        (pre ++ (TnuaController.mk (some (n, b)) : TnuaController U)
          :: post) =
      apply_controller_system d pre ++
        (⟨some (n,
            ⟨b.kind, b.input, U.applyStep b.kind b.input b.state⟩)⟩, 1) ::
          apply_controller_system d post := by
  simp [apply_controller_system, hd, tickController]

/-- Witness for C9 at concrete inputs: a walking character ticked with
duration 1 keeps its name, kind and configuration; only the frame counter
advances. -/
theorem active_basis_tick_preserves_slot_witness :
    apply_controller_system 1
        ([] ++ (TnuaController.mk (some ("walk", ⟨false, 5, 3⟩)) :
          TnuaController demoU) :: []) =
      apply_controller_system 1 ([] : List (TnuaController demoU)) ++
        (⟨some ("walk", ⟨false, 5, demoU.applyStep false 5 3⟩)⟩, 1) ::
          apply_controller_system 1 [] :=
  @active_basis_tick_preserves_slot demoU 1 (by norm_num) "walk"
    ⟨false, 5, 3⟩ [] []

/-- C10: the skip is triggered only by a frame duration equal to exactly
zero; for every nonzero duration, negative ones included, the driver runs
the loop body, which advances each character holding an active basis
exactly once. -/
theorem nonzero_duration_always_advances {U : BasisUniverse} (d : Rat)
    (hd : d ≠ 0) (query : List (TnuaController U)) :
    apply_controller_system d query = query.map tickController ∧
      ∀ (n : String) (b : BoxedBasis U),
        (tickController
          (TnuaController.mk (some (n, b)) : TnuaController U)).2 = 1 := by
  constructor
  · simp [apply_controller_system, hd]
  · intro n b
    rfl

/-- Witness for C10 at a concrete negative duration: a tick of duration -1
is not skipped and advances the walking character once. -/
theorem nonzero_duration_always_advances_witness :
    (apply_controller_system (-1) [walkC 5 3] =
        List.map tickController [walkC 5 3] ∧
      ∀ (n : String) (b : BoxedBasis demoU),
        (tickController
          (TnuaController.mk (some (n, b)) : TnuaController demoU)).2
          = 1) :=
  nonzero_duration_always_advances (-1) (by norm_num) [walkC 5 3]
